import Mathlib

/-!
Verification development for the DotaSearch bot (`src/bot.py`).

The Python source is shallowly embedded below:
* the SQLite `profiles` table becomes a `List Profile` in the store's natural
  retrieval order (rowid = `user_id`, ascending in the samples we evaluate);
* `get_profile` / `upsert_profile` become pure functions on that list;
* the per-user `context.user_data` dict becomes the `Session` structure
  (the back stack, the per-step prompt cache, and the five search fields);
* `button_handler` becomes a total function from the callback-data string to a
  `HandlerOut` record containing the new store, the new session, the
  conversation-state return value, the text/keyboard rendered this turn, the
  `store_last_text` call made this turn (if any), and the search outcome;
* `perform_search_and_reply` becomes `perform_search`, which builds the same
  row predicate as the SQL `WHERE` clause and truncates to `LIMIT 30`;
* `cmd_dump_profiles_protected` becomes `cmd_dump_profiles`.

Python truthiness of optional strings/booleans (`if x:`) is modelled by
`truthyStr` / comparison with `some true`; Python `str.strip`, `str.lower`
(ASCII plus the Cyrillic block actually used by the prompts) and `int(...)`
(plain decimal forms, as produced by the callback payloads) are modelled by
`pyStrip`, `pyLower`, `pyInt?`; SQLite's ASCII-only `LOWER` is `sql_lower`.
-/

/-- Python truthiness of an optional string: `None` and `""` are falsy. -/
def truthyStr : Option String → Bool
  | none => false
  | some s => !(s == "")

/-- Python `x or '—'` applied to an optional string (used in display lines). -/
def orDash : Option String → String
  | none => "—"
  | some s => if s == "" then "—" else s

/-- Python `cached or default` for prompt texts: empty cached text falls back. -/
def orStr : Option String → String → String
  | none, d => d
  | some t, d => if t == "" then d else t

/-- Display of an optional MMR value: `mmr if mmr is not None else '—'`. -/
def mmrStr : Option Int → String
  | none => "—"
  | some m => toString m

/-- SQLite `LOWER` folds ASCII letters only. -/
def sqlLowerChar (c : Char) : Char :=
  if 'A' ≤ c && c ≤ 'Z' then Char.ofNat (c.toNat + 32) else c

/-- SQLite `LOWER` on a whole string. -/
def sql_lower (s : String) : String := String.mk (s.data.map sqlLowerChar)

/-- Python `str.lower` restricted to the alphabets the bot's strings use:
ASCII letters and the Cyrillic block (А-Я, Ё). -/
def pyLowerChar (c : Char) : Char :=
  if 'A' ≤ c && c ≤ 'Z' then Char.ofNat (c.toNat + 32)
  else if 0x410 ≤ c.toNat && c.toNat ≤ 0x42F then Char.ofNat (c.toNat + 32)
  else if c.toNat == 0x401 then Char.ofNat 0x451
  else c

/-- Python `str.lower` on a whole string (scope as in `pyLowerChar`). -/
def pyLower (s : String) : String := String.mk (s.data.map pyLowerChar)

/-- The whitespace set stripped by Python `str.strip()` (ASCII part). -/
def isPySpace (c : Char) : Bool :=
  c == ' ' || c == '\t' || c == '\n' || c == '\r' || c == '\x0b' || c == '\x0c'

/-- Python `str.strip()`. -/
def pyStrip (s : String) : String :=
  String.mk (((s.data.dropWhile isPySpace).reverse.dropWhile isPySpace).reverse)

/-- Accumulate a decimal digit string; fails on a non-digit. -/
def digitsValAux : List Char → Nat → Option Nat
  | [], acc => some acc
  | c :: cs, acc =>
    if c.isDigit then digitsValAux cs (acc * 10 + (c.toNat - 48)) else none

/-- Value of a non-empty all-digit string. -/
def digitsVal? (l : List Char) : Option Nat :=
  if l.isEmpty then none else digitsValAux l 0

/-- Python `int(txt)` on the decimal forms the bot receives: optional sign,
then decimal digits, with surrounding whitespace stripped. -/
def pyInt? (s : String) : Option Int :=
  match (pyStrip s).data with
  | [] => none
  | c :: cs =>
    if c == '-' then (digitsVal? cs).map (fun n => -(n : Int))
    else if c == '+' then (digitsVal? cs).map (fun n => (n : Int))
    else (digitsVal? (c :: cs)).map (fun n => (n : Int))

/-- Model of `data.startswith(pfx)` (all callback payloads are ASCII). -/
def strStartsWith (s pfx : String) : Bool := pfx.data.isPrefixOf s.data

/-- Drop the first `n` characters (`data[n:]`, `data.split("_", 1)[1]`). -/
def strDrop (s : String) (n : Nat) : String := String.mk (s.data.drop n)

/-- One row of the `profiles` table (`user_id` is the primary key; `online`
and `full_party` are stored as 0/1 integers and read back as booleans). -/
structure Profile where
  user_id : Nat
  position : Option String
  mode : Option String
  mmr : Option Int
  username : Option String
  online : Bool
  full_party : Bool
deriving Repr, DecidableEq

/-- A freshly inserted row with every optional column unset. -/
def mkProfile (uid : Nat) : Profile := ⟨uid, none, none, none, none, false, false⟩

/-- Lookup `get_profile`: the row keyed by `user_id`, if present. -/
def get_profile (db : List Profile) (uid : Nat) : Option Profile :=
  db.find? (fun p => p.user_id == uid)

/-- The `UPDATE` arm of `upsert_profile`: fields passed as `None` keep their
stored value, supplied fields overwrite. -/
def apply_update (position mode : Option String) (mmr : Option Int)
    (username : Option String) (online full_party : Option Bool) (p : Profile) : Profile :=
  ⟨p.user_id,
   match position with | some v => some v | none => p.position,
   match mode with | some v => some v | none => p.mode,
   match mmr with | some v => some v | none => p.mmr,
   match username with | some v => some v | none => p.username,
   match online with | some b => b | none => p.online,
   match full_party with | some b => b | none => p.full_party⟩

/-- Model of `upsert_profile`: update the existing row, or insert a new one whose
unsupplied boolean columns default to false (`1 if online else 0`). -/
def upsert_profile (db : List Profile) (uid : Nat) (position mode : Option String)
    (mmr : Option Int) (username : Option String) (online full_party : Option Bool) :
    List Profile :=
  if db.any (fun p => p.user_id == uid) then
    db.map (fun p =>
      if p.user_id == uid then apply_update position mode mmr username online full_party p
      else p)
  else
    db ++ [⟨uid, position, mode, mmr, username, online.getD false, full_party.getD false⟩]

/-- The `POSITIONS` dict mapping digit keys to position labels. -/
def POSITIONS : List (String × String) :=
  [("1", "Carry"), ("2", "Mid"), ("3", "Offlane"), ("4", "Soft Support"), ("5", "Hard Support")]

/-- Value of `POSITIONS[key]`, if the key is present. -/
def positionsLookup (k : String) : Option String :=
  (POSITIONS.find? (fun e => e.1 == k)).map (fun e => e.2)

/-- The `GAME_MODES` list. -/
def GAME_MODES : List String := ["Turbo", "All Pick", "Single Draft", "Ranked"]

/-- The compiled-in privileged caller identity (`ADMIN_DUMP_USER_ID`). -/
def ADMIN_DUMP_USER_ID : Nat := 1637269136

/-- The per-user `context.user_data` dict: the back stack (list order =
Python list order, pushes append at the tail), the `last_text_<step>` cache
(most recent entry first), and the five search-session fields. -/
structure Session where
  back_stack : List String
  last_text : List (String × String)
  search_mode : Option String
  exclude_position : Option Bool
  specific_position : Option String
  only_full_party : Option Bool
  own_position : Option String
deriving Repr, DecidableEq

/-- A fresh session: no keys set. -/
def emptySession : Session := ⟨[], [], none, none, none, none, none⟩

/-- Model of `push_back`: append a step onto the back stack. -/
def push_back (s : Session) (prev : String) : Session :=
  { s with back_stack := s.back_stack ++ [prev] }

/-- Model of `pop_back`: remove and return the most recent step, `none` when empty. -/
def pop_back (s : Session) : Option String × Session :=
  match s.back_stack.getLast? with
  | none => (none, s)
  | some v => (some v, { s with back_stack := s.back_stack.dropLast })

/-- Model of `clear_back`: drop the stack key entirely. -/
def clear_back (s : Session) : Session := { s with back_stack := [] }

/-- Model of `store_last_text`: cache the exact prompt last shown for a step
(newest entry shadows older entries, like a dict write). -/
def store_last_text (s : Session) (step text : String) : Session :=
  { s with last_text := (step, text) :: s.last_text }

/-- Model of `get_last_text`: the cached prompt for a step, if any. -/
def get_last_text (s : Session) (step : String) : Option String :=
  (s.last_text.find? (fun e => e.1 == step)).map (fun e => e.2)

/-- The clearing performed both by `main_menu` and after a search executes:
pop the five search keys and clear the back stack (the prompt cache stays). -/
def clear_search_session (s : Session) : Session :=
  { s with search_mode := none, exclude_position := none, specific_position := none,
           only_full_party := none, own_position := none, back_stack := [] }

/-- The listed search-session state is fully cleared. -/
def search_fields_cleared (s : Session) : Prop :=
  s.search_mode = none ∧ s.exclude_position = none ∧ s.specific_position = none ∧
    s.only_full_party = none ∧ s.own_position = none ∧ s.back_stack = []

/-- Position clause of the search `WHERE`: `position = ?` when a specific
position is (truthily) requested, else `position IS NULL OR position != ?`
when exclusion is exactly `True` and the requester has a truthy position
(a `NULL` position compares unequal under SQL `=`, hence is excluded by the
specific filter but admitted by the exclusion filter). -/
def position_ok (specific_position : Option String) (exclude_position : Option Bool)
    (requester_pos : Option String) (ppos : Option String) : Bool :=
  if truthyStr specific_position then ppos == specific_position
  else if exclude_position == some true && truthyStr requester_pos then
    ppos.isNone || !(ppos == requester_pos)
  else true

/-- Mode clause: `LOWER(mode) = LOWER(?)` when a mode is truthily requested
(`LOWER(NULL)` is `NULL`, so a row with no mode is excluded). -/
def mode_ok : Option String → Option String → Bool
  | none, _ => true
  | some sm, pmode =>
    if sm == "" then true
    else
      match pmode with
      | some m => sql_lower m == sql_lower sm
      | none => false

/-- Full-party clause: `full_party = 1` only when the option is `True`. -/
def full_ok (only_full_party : Option Bool) (fp : Bool) : Bool :=
  if only_full_party == some true then fp else true

/-- MMR clause: `mmr BETWEEN max(0, rm - d) AND rm + d` when a delta is set
and the requester's MMR is known (`NULL BETWEEN ...` is not true, so a row
with no MMR is excluded). When the delta is set but the requester's MMR is
unknown no query is built at all, so that combination is never consulted. -/
def mmr_ok (mmr_filter requester_mmr : Option Int) (pm : Option Int) : Bool :=
  match mmr_filter, requester_mmr with
  | some d, some rm =>
    match pm with
    | some m => decide (max 0 (rm - d) ≤ m) && decide (m ≤ rm + d)
    | none => false
  | _, _ => true

/-- The full row predicate of the SQL built by `perform_search_and_reply`:
`user_id != ? AND online = 1` plus the optional clauses above. -/
def search_row_pred (requester_id : Nat) (requester_pos : Option String)
    (requester_mmr : Option Int) (search_mode : Option String) (mmr_filter : Option Int)
    (exclude_position : Option Bool) (specific_position : Option String)
    (only_full_party : Option Bool) (p : Profile) : Bool :=
  (p.user_id != requester_id) && p.online
    && position_ok specific_position exclude_position requester_pos p.position
    && mode_ok search_mode p.mode
    && full_ok only_full_party p.full_party
    && mmr_ok mmr_filter requester_mmr p.mmr

/-- The three terminal outcomes of `perform_search_and_reply`. -/
inductive SearchReply where
  | mmrUnavailable : SearchReply
  | noResults : SearchReply
  | results : List Profile → SearchReply
deriving Repr, DecidableEq

/-- Model of `perform_search_and_reply` minus the transport: fetch the requester's
profile, abort with `mmrUnavailable` before any query when an MMR filter is
requested without a stored requester MMR, otherwise run the predicate over
the store and keep the first 30 rows (`LIMIT 30`). -/
def perform_search (db : List Profile) (requester_id : Nat) (search_mode : Option String)
    (mmr_filter : Option Int) (exclude_position : Option Bool)
    (specific_position : Option String) (only_full_party : Option Bool) : SearchReply :=
  let rp := get_profile db requester_id
  let requester_pos := rp.bind Profile.position
  let requester_mmr := rp.bind Profile.mmr
  if mmr_filter.isSome && requester_mmr.isNone then .mmrUnavailable
  else
    let rows := (db.filter (search_row_pred requester_id requester_pos requester_mmr
      search_mode mmr_filter exclude_position specific_position only_full_party)).take 30
    if rows.isEmpty then .noResults else .results rows

/-- The button layouts the handler can attach to a rendered message
(layout identity only; the labels are fixed per layout in the source). -/
inductive Keyboard where
  | main : Keyboard
  | profileEdit : Bool → Bool → Keyboard
  | modeSelect : String → Keyboard
  | posOption : Bool → Keyboard
  | selectPosition : Keyboard
  | fullOption : Keyboard
  | mmrOption : Keyboard
  | backAndMenu : Keyboard
  | backMenuCancel : Keyboard
  | needPosition : Keyboard
  | needMmr : Keyboard
  | resultsKb : List Profile → Keyboard
deriving Repr, DecidableEq

/-- One line of the rendered search results for a matching row. -/
def result_line (p : Profile) : String :=
  (match p.username with
   | some u => if u == "" then "ID " ++ toString p.user_id else "@" ++ u
   | none => "ID " ++ toString p.user_id)
  |> (fun label =>
    "👤 " ++ label ++ "\n🎯 " ++ orDash p.position ++ " | 🎮 " ++ orDash p.mode ++
    " | 📊 " ++ mmrStr p.mmr ++ " | " ++ (if p.full_party then "🤝" else "—"))

/-- The message text rendered for each search outcome. -/
def render_search_reply : SearchReply → String
  | .mmrUnavailable => "Чтобы фильтровать по MMR, у тебя должен быть указан MMR в профиле."
  | .noResults => "😔 Пока никто не найден по заданным критериям. Попробуй позже!"
  | .results rows =>
    "Результаты поиска:\n\n" ++ String.intercalate "\n\n" (rows.map result_line) ++
      "\n\nНапиши игрокам, чтобы договориться о игре!"

/-- The keyboard attached to each search outcome. -/
def reply_keyboard : SearchReply → Keyboard
  | .mmrUnavailable => .main
  | .noResults => .main
  | .results rows => .resultsKb rows

/-- The profile view text built by the `my_profile` branch. -/
def profile_view_text (pos mode : Option String) (mmr : Option Int)
    (username : Option String) : String :=
  "👤 Твой профиль:\n\n" ++
  "🎯 Позиция: " ++ orDash pos ++ "\n" ++
  "🎮 Предпочитаемый режим: " ++ orDash mode ++ "\n" ++
  "📊 MMR: " ++ mmrStr mmr ++ "\n" ++
  (match username with
   | some u => if u == "" then "" else "🔗 Username: @" ++ u ++ "\n"
   | none => "") ++
  "\n\nСтатус Online/Offline:\nЕсли вы включите Online — вас будут показывать в результатах поиска и вам могут написать.\nЕсли выключите — вы не будете видны в поиске и вас не будут беспокоить." ++
  "\n\nFull party (согласен на полную пати):\nЕсли включено — вы помечены как готовый играть в полную пати."

/-- Outcome of `render_prev`: the session after any stack mutation, what got
rendered, and whether the source would raise (the `PROFILE` fallback text in
`render_prev` is a malformed expression — an f-string called as a function —
so rendering `PROFILE` with a falsy cached text raises `TypeError`). -/
structure RenderOut where
  session : Session
  rendered : Option (String × Keyboard)
  raised : Bool
deriving Repr, DecidableEq

/-- Model of `render_prev`: re-render a popped step from the cached prompt, falling
back to the step's default prompt (Python `last or default`). -/
def render_prev (db : List Profile) (uid : Nat) (prev : Option String) (s : Session) :
    RenderOut :=
  match prev with
  | none => ⟨s, some ("Главное меню:", .main), false⟩
  | some st =>
    if st == "MAIN_MENU" then ⟨clear_back s, some ("Главное меню:", .main), false⟩
    else if st == "PROFILE" then
      let onl := ((get_profile db uid).map Profile.online).getD false
      let ful := ((get_profile db uid).map Profile.full_party).getD false
      if truthyStr (get_last_text s "PROFILE") then
        ⟨s, some (orStr (get_last_text s "PROFILE") "", .profileEdit onl ful), false⟩
      else ⟨s, none, true⟩
    else if st == "SEARCH_MODE" then
      ⟨s, some (orStr (get_last_text s "SEARCH_MODE") "Выбери режим игры для поиска:",
        .modeSelect "mode_"), false⟩
    else if st == "SEARCH_POS_OPTION" then
      ⟨s, some (orStr (get_last_text s "SEARCH_POS_OPTION")
        "Хотите исключать вашу позицию при поиске, или искать определённую позицию?",
        .posOption (s.exclude_position.getD true)), false⟩
    else if st == "SELECT_POSITION" then
      ⟨s, some (orStr (get_last_text s "SELECT_POSITION") "Выберите позицию для поиска:",
        .selectPosition), false⟩
    else if st == "SEARCH_FULL_OPTION" then
      ⟨s, some (orStr (get_last_text s "SEARCH_FULL_OPTION")
        "Искать только тех, кто согласен на Full Party?", .fullOption), false⟩
    else if st == "SEARCH_MMR" then
      ⟨s, some (orStr (get_last_text s "SEARCH_MMR") "Теперь выберите опции по MMR:",
        .mmrOption), false⟩
    else ⟨s, some ("Главное меню:", .main), false⟩

/-- The `ConversationHandler` return value of a handler invocation: one of
the numbered states, `END`, or `EXC` when the Python body raises. -/
inductive ConvRet where
  | END : ConvRet
  | EXC : ConvRet
  | POSITION : ConvRet
  | MODE : ConvRet
  | MMR : ConvRet
  | SEARCH_MODE : ConvRet
  | SEARCH_POS_OPTION : ConvRet
  | SELECT_POSITION : ConvRet
  | SEARCH_FULL_OPTION : ConvRet
  | SEARCH_MMR : ConvRet
deriving Repr, DecidableEq

/-- Result of one handler invocation: new store, new session, conversation
return, the text/keyboard rendered, the `store_last_text` call made this
turn (step, text) if any, and the search outcome if a search ran. -/
structure HandlerOut where
  db : List Profile
  session : Session
  ret : ConvRet
  rendered : Option (String × Keyboard)
  stored : Option (String × String)
  search : Option SearchReply
deriving Repr, DecidableEq

/-- Branch `go_back`: pop the stack and re-render the popped step. -/
def bh_go_back (db : List Profile) (uid : Nat) (s : Session) : HandlerOut :=
  let pr := pop_back s
  let r := render_prev db uid pr.1 pr.2
  ⟨db, r.session, if r.raised then .EXC else .END,
   if r.raised then none else r.rendered, none, none⟩

/-- Branch `main_menu`: pop the five search keys, clear the stack, show the menu. -/
def bh_main_menu (db : List Profile) (s : Session) : HandlerOut :=
  ⟨db, clear_search_session s, .END, some ("Главное меню:", .main), none, none⟩

/-- Branch `my_profile`: render and cache the profile view. -/
def bh_my_profile (db : List Profile) (uid : Nat) (s : Session) : HandlerOut :=
  let pq := get_profile db uid
  let text := profile_view_text (pq.bind Profile.position) (pq.bind Profile.mode)
    (pq.bind Profile.mmr) (pq.bind Profile.username)
  let onl := (pq.map Profile.online).getD false
  let ful := (pq.map Profile.full_party).getD false
  ⟨db, store_last_text s "PROFILE" text, .END, some (text, .profileEdit onl ful),
   some ("PROFILE", text), none⟩

/-- Branch `toggle_online`: flip the stored flag, upsert, re-render the profile. -/
def bh_toggle_online (db : List Profile) (uid : Nat) (un : Option String) (s : Session) :
    HandlerOut :=
  let cur := ((get_profile db uid).map Profile.online).getD false
  let nw := !cur
  let db2 := upsert_profile db uid none none none un (some nw) none
  let text := if nw then
      "🟢 Вы включили статус ONLINE.\n\nЭто означает: люди будут видеть вас в результатах поиска и смогут написать."
    else
      "⚪ Вы переключились в OFFLINE.\n\nВы не будете видны в поиске и вас не будут беспокоить."
  let ful := ((get_profile db2 uid).map Profile.full_party).getD false
  ⟨db2, store_last_text s "PROFILE" text, .END, some (text, .profileEdit nw ful),
   some ("PROFILE", text), none⟩

/-- Branch `toggle_fullparty`: flip the stored flag, upsert, re-render the profile. -/
def bh_toggle_fullparty (db : List Profile) (uid : Nat) (un : Option String) (s : Session) :
    HandlerOut :=
  let cur := ((get_profile db uid).map Profile.full_party).getD false
  let nw := !cur
  let db2 := upsert_profile db uid none none none un none (some nw)
  let text := if nw then
      "✅ Вы включили согласие на Full Party.\n\nЭто показывает другим, что вы согласны играть в полную пати."
    else
      "❌ Вы отключили согласие на Full Party.\n\nВы не помечены как желающий играть в полную пати."
  let onl := ((get_profile db2 uid).map Profile.online).getD false
  ⟨db2, store_last_text s "PROFILE" text, .END, some (text, .profileEdit onl nw),
   some ("PROFILE", text), none⟩

/-- Branch `edit_position`: push `PROFILE`, prompt for a digit. -/
def bh_edit_position (db : List Profile) (s : Session) : HandlerOut :=
  let s1 := push_back s "PROFILE"
  let t := "Укажи свою предпочитаемую позицию цифрой:\n\n1 — Carry\n2 — Mid\n3 — Offlane\n4 — Soft Support\n5 — Hard Support"
  ⟨db, store_last_text s1 "POSITION" t, .POSITION, some (t, .backAndMenu),
   some ("POSITION", t), none⟩

/-- Branch `edit_mode`: push `PROFILE`, prompt for a mode. -/
def bh_edit_mode (db : List Profile) (s : Session) : HandlerOut :=
  let s1 := push_back s "PROFILE"
  let t := "Выбери предпочитаемый режим (будет сохранён в профиле):"
  ⟨db, store_last_text s1 "MODE" t, .MODE, some (t, .modeSelect "setmode_"),
   some ("MODE", t), none⟩

/-- Branch `edit_mmr`: push `PROFILE`, prompt for a number. -/
def bh_edit_mmr (db : List Profile) (s : Session) : HandlerOut :=
  let s1 := push_back s "PROFILE"
  let t := "Введи свой MMR (целое число, например: 3500):"
  ⟨db, store_last_text s1 "MMR" t, .MMR, some (t, .backMenuCancel),
   some ("MMR", t), none⟩

/-- Branch `setmode_<m>`: persist the preferred mode, re-render the profile. -/
def bh_setmode (db : List Profile) (uid : Nat) (un : Option String) (m : String)
    (s : Session) : HandlerOut :=
  let db2 := upsert_profile db uid none (some m) none un none none
  let pq := get_profile db2 uid
  let onl := (pq.map Profile.online).getD false
  let ful := (pq.map Profile.full_party).getD false
  let text := "✅ Предпочитаемый режим сохранён: " ++ m
  ⟨db2, store_last_text s "PROFILE" text, .END, some (text, .profileEdit onl ful),
   some ("PROFILE", text), none⟩

/-- Branch `search_party`: require a (truthy) profile position, then seed the search
session (`own_position`, default `exclude_position := True`, drop stale
specific/full-party choices), reset the stack to `[MAIN_MENU]` and prompt
for the search mode. -/
def bh_search_party (db : List Profile) (uid : Nat) (s : Session) : HandlerOut :=
  match get_profile db uid with
  | none => ⟨db, s, .END, some ("❌ Сначала укажи позицию в профиле!", .needPosition),
      none, none⟩
  | some p =>
    if !(truthyStr p.position) then
      ⟨db, s, .END, some ("❌ Сначала укажи позицию в профиле!", .needPosition), none, none⟩
    else
      let s1 := { s with own_position := p.position,
                         exclude_position := match s.exclude_position with
                           | none => some true
                           | some b => some b,
                         specific_position := none, only_full_party := none,
                         back_stack := ["MAIN_MENU"] }
      let t := "Выбери режим игры для поиска:"
      ⟨db, store_last_text s1 "SEARCH_MODE" t, .SEARCH_MODE, some (t, .modeSelect "mode_"),
       some ("SEARCH_MODE", t), none⟩

/-- Branch `mode_<m>`: require a truthy `own_position`, then record the search mode,
push `SEARCH_MODE` and prompt for the position option. -/
def bh_mode (db : List Profile) (m : String) (s : Session) : HandlerOut :=
  if !(truthyStr s.own_position) then
    ⟨db, s, .END, some ("Сначала выберите позицию в профиле.", .main), none, none⟩
  else
    let s1 := push_back s "SEARCH_MODE"
    let s2 := { s1 with search_mode := some m,
                        exclude_position := match s1.exclude_position with
                          | none => some true
                          | some b => some b }
    let t := "Хотите исключать вашу позицию при поиске, или искать определённую позицию?"
    ⟨db, store_last_text s2 "SEARCH_POS_OPTION" t, .SEARCH_POS_OPTION,
     some (t, .posOption (s2.exclude_position.getD true)), some ("SEARCH_POS_OPTION", t), none⟩

/-- Branch `toggle_exclude_position`: flip the flag in place and re-render the same
step; the stack is untouched and no forward state is entered. -/
def bh_toggle_exclude (db : List Profile) (s : Session) : HandlerOut :=
  let nw := !(s.exclude_position.getD true)
  let s1 := { s with exclude_position := some nw }
  let t := "Выберите действие по позиции для поиска:"
  ⟨db, store_last_text s1 "SEARCH_POS_OPTION" t, .END, some (t, .posOption nw),
   some ("SEARCH_POS_OPTION", t), none⟩

/-- Branch `start_search`: push the position-option step, ask about full party. -/
def bh_start_search (db : List Profile) (s : Session) : HandlerOut :=
  let s1 := push_back s "SEARCH_POS_OPTION"
  let t := "Искать только тех, кто согласен на Full Party?"
  ⟨db, store_last_text s1 "SEARCH_FULL_OPTION" t, .SEARCH_FULL_OPTION,
   some (t, .fullOption), some ("SEARCH_FULL_OPTION", t), none⟩

/-- Branch `spec_position`: push the position-option step, show the position list. -/
def bh_spec_position (db : List Profile) (s : Session) : HandlerOut :=
  let s1 := push_back s "SEARCH_POS_OPTION"
  let t := "Выберите позицию для поиска:"
  ⟨db, store_last_text s1 "SELECT_POSITION" t, .SELECT_POSITION,
   some (t, .selectPosition), some ("SELECT_POSITION", t), none⟩

/-- Branch `selectpos_<k>`: on a valid key set `specific_position`, pop the
`exclude_position` key, push `SELECT_POSITION`, ask about full party. -/
def bh_selectpos (db : List Profile) (k : String) (s : Session) : HandlerOut :=
  match positionsLookup k with
  | none => ⟨db, s, .END, some ("Неверный выбор позиции.", .main), none, none⟩
  | some pos =>
    let s1 := { s with specific_position := some pos, exclude_position := none }
    let s2 := push_back s1 "SELECT_POSITION"
    let t := "Искать только тех, кто согласен на Full Party?"
    ⟨db, store_last_text s2 "SEARCH_FULL_OPTION" t, .SEARCH_FULL_OPTION,
     some (t, .fullOption), some ("SEARCH_FULL_OPTION", t), none⟩

/-- Branches `only_full_yes` / `only_full_no`: record the choice, push the full-party
step; the cached text is the bare MMR prompt while the displayed text is
prefixed with the choice confirmation. -/
def bh_only_full (db : List Profile) (b : Bool) (s : Session) : HandlerOut :=
  let s1 := push_back { s with only_full_party := some b } "SEARCH_FULL_OPTION"
  let t := if b then "Выбрано: только Full party. Теперь выберите опции по MMR:"
           else "Выбрано: не фильтровать по Full party. Теперь выберите опции по MMR:"
  ⟨db, store_last_text s1 "SEARCH_MMR" "Теперь выберите опции по MMR:", .SEARCH_MMR,
   some (t, .mmrOption), some ("SEARCH_MMR", "Теперь выберите опции по MMR:"), none⟩

/-- Branch `mmr_none`: run the search with no MMR filter, then pop the five search
keys and clear the stack. -/
def bh_mmr_none (db : List Profile) (uid : Nat) (s : Session) : HandlerOut :=
  let r := perform_search db uid s.search_mode none (some (s.exclude_position.getD true))
    s.specific_position (some (s.only_full_party.getD false))
  ⟨db, clear_search_session s, .END, some (render_search_reply r, reply_keyboard r),
   none, some r⟩

/-- Branch `delta_<sfx>`: `int(sfx)` raises on a non-numeric suffix (this is what
the dead `delta_custom` button hits). With a parsed delta but no stored
requester MMR, reply with the set-your-MMR prompt and return — leaving the
session untouched. Otherwise run the search and clear like `mmr_none`. -/
def bh_delta (db : List Profile) (uid : Nat) (sfx : String) (s : Session) : HandlerOut :=
  match pyInt? sfx with
  | none => ⟨db, s, .EXC, none, none, none⟩
  | some d =>
    match (get_profile db uid).bind Profile.mmr with
    | none => ⟨db, s, .END,
        some ("Чтобы фильтровать по MMR, сначала укажи свой MMR.", .needMmr), none, none⟩
    | some _ =>
      let r := perform_search db uid s.search_mode (some d)
        (some (s.exclude_position.getD true)) s.specific_position
        (some (s.only_full_party.getD false))
      ⟨db, clear_search_session s, .END, some (render_search_reply r, reply_keyboard r),
       none, some r⟩

/-- The callback tokens `button_handler` dispatches on, in source order.
The source's `delta_custom` branch is dead code: `data.startswith("delta_")`
is tested first and `int("custom")` raises, so no token maps to it. -/
inductive Cb where
  | go_back : Cb
  | main_menu : Cb
  | my_profile : Cb
  | toggle_online : Cb
  | toggle_fullparty : Cb
  | edit_position : Cb
  | edit_mode : Cb
  | edit_mmr : Cb
  | setmode : String → Cb
  | search_party : Cb
  | mode : String → Cb
  | toggle_exclude_position : Cb
  | start_search : Cb
  | spec_position : Cb
  | selectpos : String → Cb
  | only_full_yes : Cb
  | only_full_no : Cb
  | mmr_none : Cb
  | delta : String → Cb
  | other : Cb
deriving Repr, DecidableEq

/-- The dispatch chain of `button_handler`, in source order. -/
def callbackOf (data : String) : Cb :=
  if data == "go_back" then .go_back
  else if data == "main_menu" then .main_menu
  else if data == "my_profile" then .my_profile
  else if data == "toggle_online" then .toggle_online
  else if data == "toggle_fullparty" then .toggle_fullparty
  else if data == "edit_position" then .edit_position
  else if data == "edit_mode" then .edit_mode
  else if data == "edit_mmr" then .edit_mmr
  else if strStartsWith data "setmode_" then .setmode (strDrop data 8)
  else if data == "search_party" then .search_party
  else if strStartsWith data "mode_" then .mode (strDrop data 5)
  else if data == "toggle_exclude_position" then .toggle_exclude_position
  else if data == "start_search" then .start_search
  else if data == "spec_position" then .spec_position
  else if strStartsWith data "selectpos_" then .selectpos (strDrop data 10)
  else if data == "only_full_yes" then .only_full_yes
  else if data == "only_full_no" then .only_full_no
  else if data == "mmr_none" then .mmr_none
  else if strStartsWith data "delta_" then .delta (strDrop data 6)
  else .other

/-- Apply one dispatched callback. -/
def applyCallback (db : List Profile) (uid : Nat) (un : Option String) (c : Cb)
    (s : Session) : HandlerOut :=
  match c with
  | .go_back => bh_go_back db uid s
  | .main_menu => bh_main_menu db s
  | .my_profile => bh_my_profile db uid s
  | .toggle_online => bh_toggle_online db uid un s
  | .toggle_fullparty => bh_toggle_fullparty db uid un s
  | .edit_position => bh_edit_position db s
  | .edit_mode => bh_edit_mode db s
  | .edit_mmr => bh_edit_mmr db s
  | .setmode m => bh_setmode db uid un m s
  | .search_party => bh_search_party db uid s
  | .mode m => bh_mode db m s
  | .toggle_exclude_position => bh_toggle_exclude db s
  | .start_search => bh_start_search db s
  | .spec_position => bh_spec_position db s
  | .selectpos k => bh_selectpos db k s
  | .only_full_yes => bh_only_full db true s
  | .only_full_no => bh_only_full db false s
  | .mmr_none => bh_mmr_none db uid s
  | .delta sfx => bh_delta db uid sfx s
  | .other => ⟨db, s, .END, none, none, none⟩

/-- Model of `button_handler`: dispatch on the callback-data string. -/
def button_handler (db : List Profile) (uid : Nat) (un : Option String) (data : String)
    (s : Session) : HandlerOut :=
  applyCallback db uid un (callbackOf data) s

/-- Model of `get_position`: the free-text handler of the `POSITION` state. A cancel
keyword pops the stack and re-renders; a valid digit key persists the mapped
label and ends; anything else re-prompts and stays in `POSITION`. -/
def get_position (db : List Profile) (uid : Nat) (un : Option String) (txt : String)
    (s : Session) : HandlerOut :=
  let t := pyStrip txt
  if pyLower t == "отмена" || pyLower t == "cancel" then
    let pr := pop_back s
    let r := render_prev db uid pr.1 pr.2
    ⟨db, r.session, if r.raised then .EXC else .END,
     if r.raised then none else r.rendered, none, none⟩
  else
    match positionsLookup t with
    | none => ⟨db, s, .POSITION, some ("❌ Введи цифру от 1 до 5!", .backAndMenu),
        none, none⟩
    | some pos_name =>
      ⟨upsert_profile db uid (some pos_name) none none un none none, s, .END,
       some ("✅ Позиция сохранена: " ++ pos_name ++ "\n\nТеперь можешь искать тиммейта!",
         .main), none, none⟩

/-- One line of the privileged dump, as formatted by the source's f-string. -/
def dump_line (p : Profile) : String :=
  toString p.user_id ++ " | pos=" ++ orDash p.position ++ " | mode=" ++ orDash p.mode ++
    " | mmr=" ++ mmrStr p.mmr ++ " | username=" ++ orDash p.username ++
    " | online=" ++ (if p.online then "1" else "0") ++
    " | full=" ++ (if p.full_party then "1" else "0")

/-- The `lines` list of the dump: the rows returned by the `LIMIT 500` select. -/
def dump_lines (db : List Profile) : List String := (db.take 500).map dump_line

/-- The joined dump text (`"\n".join(lines)`). -/
def dump_text (db : List Profile) : String := String.intercalate "\n" (dump_lines db)

/-- Slices `text[i:i+4000]` for `i in range(0, len(text), 4000)`. -/
def chunk4000 : List Char → List (List Char)
  | [] => []
  | c :: cs => (List.take 4000 (c :: cs)) :: chunk4000 (List.drop 4000 (c :: cs))
termination_by l => l.length
decreasing_by simp [List.length_drop]; omega

/-- Model of `cmd_dump_profiles_protected`: the ordered list of messages sent. A
non-privileged caller gets a refusal and nothing else; an empty table gets a
notice; otherwise the dump text is sent in 4000-character slices. -/
def cmd_dump_profiles (db : List Profile) (caller : Nat) : List String :=
  if caller != ADMIN_DUMP_USER_ID then ["У вас нет доступа к этой команде."]
  else if (db.take 500).isEmpty then ["База профилей пуста."]
  else (chunk4000 (dump_text db).data).map String.mk

/-- Store used by several witnesses: requester 1 (Mid, mmr 3000, online) and
candidate 2 (Carry, Ranked, mmr 3100, online, full party). -/
def dbW : List Profile :=
  [⟨1, some "Mid", none, some 3000, none, true, false⟩,
   ⟨2, some "Carry", some "Ranked", some 3100, none, true, true⟩]

/-- The candidate row of `dbW`. -/
def pW : Profile := ⟨2, some "Carry", some "Ranked", some 3100, none, true, true⟩

/-- Store with a single user who has no stored MMR. -/
def dbW4 : List Profile := [⟨4, some "Offlane", some "Ranked", none, none, false, false⟩]

/-- A session in the middle of a configured search. -/
def sW : Session :=
  { emptySession with search_mode := some "Ranked", exclude_position := some true,
                      own_position := some "Mid", back_stack := ["MAIN_MENU", "SEARCH_MODE"] }

/-- A store of 501 profiles: one more than the dump's `LIMIT 500`. -/
def db501 : List Profile := (List.range 501).map (fun i => mkProfile (i + 1))

/- ===================== Theorems ===================== -/

theorem find?_map_upd (uid : Nat) (f : Profile → Profile)
    (hf : ∀ p, (f p).user_id = p.user_id) (db : List Profile) :
    (db.map (fun p => if p.user_id == uid then f p else p)).find?
        (fun p => p.user_id == uid) =
      (db.find? (fun p => p.user_id == uid)).map f := by
  induction db with
  | nil => rfl
  | cons q qs ih =>
    by_cases hq : (q.user_id == uid) = true
    · simp only [List.map_cons, if_pos hq]
      rw [@List.find?_cons_of_pos _ (fun p => p.user_id == uid) (f q) _
          (by show ((f q).user_id == uid) = true; rw [hf]; exact hq),
        @List.find?_cons_of_pos _ (fun p => p.user_id == uid) q qs hq]
      rfl
    · simp only [List.map_cons, if_neg hq]
      rw [@List.find?_cons_of_neg _ (fun p => p.user_id == uid) q _ hq,
        @List.find?_cons_of_neg _ (fun p => p.user_id == uid) q qs hq, ih]

theorem find?_append_of_none {α : Type} (p : α → Bool) (l1 l2 : List α)
    (h : l1.find? p = none) : (l1 ++ l2).find? p = l2.find? p := by
  induction l1 with
  | nil => rfl
  | cons x xs ih =>
    rw [List.find?_cons] at h
    rcases hx : p x with _ | _
    · rw [List.cons_append, List.find?_cons_of_neg _ (by simp [hx])]
      exact ih (by rwa [hx] at h)
    · rw [hx] at h; exact absurd h (by simp)

theorem position_after_upsert (db : List Profile) (uid : Nat) (v : String)
    (un : Option String) :
    ((get_profile (upsert_profile db uid (some v) none none un none none) uid).bind
      Profile.position) = some v := by
  unfold upsert_profile get_profile
  split
  case isTrue h =>
    rw [find?_map_upd uid (apply_update (some v) none none un none none) (fun p => rfl) db]
    obtain ⟨q, hqmem, hq⟩ := List.any_eq_true.mp h
    have hsome : (db.find? (fun p => p.user_id == uid)).isSome :=
      List.find?_isSome.mpr ⟨q, hqmem, hq⟩
    obtain ⟨r, hr⟩ := Option.isSome_iff_exists.mp hsome
    rw [hr]
    simp [apply_update]
  case isFalse h =>
    have hnone : db.find? (fun p => p.user_id == uid) = none := by
      rw [List.find?_eq_none]
      intro x hx hpx
      exact h (List.any_eq_true.mpr ⟨x, hx, hpx⟩)
    rw [find?_append_of_none _ _ _ hnone]
    simp [List.find?_cons]

theorem results_rows_eq (db : List Profile) (rid : Nat) (sm : Option String)
    (mf : Option Int) (ep : Option Bool) (spp : Option String) (ofp : Option Bool)
    (rows : List Profile)
    (h : perform_search db rid sm mf ep spp ofp = SearchReply.results rows) :
    rows = (db.filter (search_row_pred rid ((get_profile db rid).bind Profile.position)
        ((get_profile db rid).bind Profile.mmr) sm mf ep spp ofp)).take 30 ∧
      (mf.isSome && ((get_profile db rid).bind Profile.mmr).isNone) = false := by
  unfold perform_search at h
  simp only at h
  split at h
  · exact absurd h (by simp)
  · constructor
    · split at h
      · exact absurd h (by simp)
      · exact (SearchReply.results.injEq _ _ ▸ h).symm
    · exact Bool.eq_false_iff.mpr ‹¬_›

theorem mem_results_pred (db : List Profile) (rid : Nat) (sm : Option String)
    (mf : Option Int) (ep : Option Bool) (spp : Option String) (ofp : Option Bool)
    (rows : List Profile) (p : Profile)
    (h : perform_search db rid sm mf ep spp ofp = SearchReply.results rows)
    (hp : p ∈ rows) :
    search_row_pred rid ((get_profile db rid).bind Profile.position)
      ((get_profile db rid).bind Profile.mmr) sm mf ep spp ofp p = true := by
  obtain ⟨hrows, -⟩ := results_rows_eq db rid sm mf ep spp ofp rows h
  rw [hrows] at hp
  exact (List.mem_filter.mp (List.take_subset _ _ hp)).2

/-- C1: every profile in an executed search's result list has a user id
different from the requester's and is online, for all option combinations. -/
theorem C1_requester_and_offline_excluded (db : List Profile) (rid : Nat)
    (sm : Option String) (mf : Option Int) (ep : Option Bool) (spp : Option String)
    (ofp : Option Bool) (rows : List Profile) (p : Profile)
    (hres : perform_search db rid sm mf ep spp ofp = SearchReply.results rows)
    (hmem : p ∈ rows) : p.user_id ≠ rid ∧ p.online = true := by
  have hpred := mem_results_pred db rid sm mf ep spp ofp rows p hres hmem
  unfold search_row_pred at hpred
  simp only [Bool.and_eq_true, bne_iff_ne, ne_eq] at hpred
  exact ⟨hpred.1.1.1.1.1, hpred.1.1.1.1.2⟩

theorem C1_witness : pW.user_id ≠ 1 ∧ pW.online = true :=
  C1_requester_and_offline_excluded dbW 1 none none none none none [pW] pW
    (by decide) (by decide)

/-- C3: with a delta set and the requester's MMR known, the MMR clause admits
exactly the candidates whose MMR lies in the inclusive window
`[max(0, requester_mmr - delta), requester_mmr + delta]`; a row admitted by
the whole predicate has its MMR in that window; for requester MMR 3000 and
delta 250 the window is `[2750, 3250]`, and for requester MMR 100 and delta
250 it is `[0, 350]`. -/
theorem C3_mmr_window :
    (∀ d rm m : Int, mmr_ok (some d) (some rm) (some m) = true ↔
        (max 0 (rm - d) ≤ m ∧ m ≤ rm + d)) ∧
    (∀ (rid : Nat) (rpos : Option String) (sm : Option String) (d rm : Int)
        (ep : Option Bool) (spp : Option String) (ofp : Option Bool) (p : Profile),
        search_row_pred rid rpos (some rm) sm (some d) ep spp ofp p = true →
        ∃ m, p.mmr = some m ∧ max 0 (rm - d) ≤ m ∧ m ≤ rm + d) ∧
    (∀ m : Int, mmr_ok (some 250) (some 3000) (some m) = true ↔ (2750 ≤ m ∧ m ≤ 3250)) ∧
    (∀ m : Int, mmr_ok (some 250) (some 100) (some m) = true ↔ (0 ≤ m ∧ m ≤ 350)) := by
  refine ⟨?_, ?_, ?_, ?_⟩
  · intro d rm m
    simp [mmr_ok, Bool.and_eq_true, decide_eq_true_iff]
  · intro rid rpos sm d rm ep spp ofp p hpred
    unfold search_row_pred at hpred
    simp only [Bool.and_eq_true] at hpred
    have hmmr := hpred.2
    cases hm : p.mmr with
    | none => rw [hm] at hmmr; exact absurd hmmr (by simp [mmr_ok])
    | some m =>
      rw [hm] at hmmr
      simp only [mmr_ok, Bool.and_eq_true, decide_eq_true_iff] at hmmr
      exact ⟨m, rfl, hmmr.1, hmmr.2⟩
  · intro m
    simp [mmr_ok, Bool.and_eq_true, decide_eq_true_iff]
  · intro m
    simp [mmr_ok, Bool.and_eq_true, decide_eq_true_iff]

theorem C3_witness :
    ∃ m, pW.mmr = some m ∧ max 0 ((3000 : Int) - 250) ≤ m ∧ m ≤ (3000 : Int) + 250 :=
  C3_mmr_window.2.1 1 (some "Mid") none 250 3000 none none none pW (by decide)

/-- C6: an MMR-delta filter with no stored requester MMR aborts the search
with the distinct `mmrUnavailable` outcome before any candidate query runs
(so it is neither the empty-result outcome nor any result list), and the
fixed-delta buttons reply with the set-your-MMR prompt without running any
search. -/
theorem C6_mmr_unavailable :
    (∀ (db : List Profile) (rid : Nat) (sm : Option String) (d : Int) (ep : Option Bool)
        (spp : Option String) (ofp : Option Bool),
        (get_profile db rid).bind Profile.mmr = none →
        perform_search db rid sm (some d) ep spp ofp = SearchReply.mmrUnavailable) ∧
    (∀ rows : List Profile, SearchReply.mmrUnavailable ≠ SearchReply.results rows) ∧
    (SearchReply.mmrUnavailable ≠ SearchReply.noResults) ∧
    (∀ (db : List Profile) (uid : Nat) (un : Option String) (s : Session) (data : String),
        data ∈ ["delta_100", "delta_250", "delta_500"] →
        (get_profile db uid).bind Profile.mmr = none →
        (button_handler db uid un data s).search = none ∧
        (button_handler db uid un data s).rendered =
          some ("Чтобы фильтровать по MMR, сначала укажи свой MMR.", Keyboard.needMmr) ∧
        (button_handler db uid un data s).ret = ConvRet.END) := by
  refine ⟨?_, by intro rows h; exact SearchReply.noConfusion h,
    by intro h; exact SearchReply.noConfusion h, ?_⟩
  · intro db rid sm d ep spp ofp h
    unfold perform_search
    simp [h]
  · intro db uid un s data hdata hmmr
    simp only [List.mem_cons, List.not_mem_nil, or_false] at hdata
    rcases hdata with h | h | h
    · subst h
      rw [button_handler, show callbackOf "delta_100" = Cb.delta "100" from by decide]
      simp [applyCallback, bh_delta, show pyInt? "100" = some 100 from by decide, hmmr]
    · subst h
      rw [button_handler, show callbackOf "delta_250" = Cb.delta "250" from by decide]
      simp [applyCallback, bh_delta, show pyInt? "250" = some 250 from by decide, hmmr]
    · subst h
      rw [button_handler, show callbackOf "delta_500" = Cb.delta "500" from by decide]
      simp [applyCallback, bh_delta, show pyInt? "500" = some 500 from by decide, hmmr]

theorem C6_witness :
    perform_search dbW4 4 none (some 100) none none none = SearchReply.mmrUnavailable ∧
    (button_handler dbW4 4 none "delta_100" emptySession).search = none :=
  ⟨C6_mmr_unavailable.1 dbW4 4 none 100 none none none (by decide),
   (C6_mmr_unavailable.2.2.2 dbW4 4 none emptySession "delta_100" (by simp) (by decide)).1⟩

/-- C10: with an active MMR-delta filter every candidate with unset MMR is
excluded from the results, whereas the position-exclusion clause admits rows
with unset position, and with no MMR filter the MMR clause excludes nobody. -/
theorem C10_unset_mmr_excluded :
    (∀ (db : List Profile) (rid : Nat) (sm : Option String) (d : Int) (ep : Option Bool)
        (spp : Option String) (ofp : Option Bool) (rows : List Profile) (p : Profile),
        perform_search db rid sm (some d) ep spp ofp = SearchReply.results rows →
        p ∈ rows → p.mmr ≠ none) ∧
    (∀ (e : Option Bool) (rp : Option String), position_ok none e rp none = true) ∧
    (∀ rm pm : Option Int, mmr_ok none rm pm = true) := by
  refine ⟨?_, ?_, ?_⟩
  · intro db rid sm d ep spp ofp rows p hres hmem hmm
    have hpred := mem_results_pred db rid sm (some d) ep spp ofp rows p hres hmem
    obtain ⟨-, hav⟩ := results_rows_eq db rid sm (some d) ep spp ofp rows hres
    simp only [Option.isSome_some, Bool.true_and, Bool.eq_false_iff, ne_eq,
      Option.isNone_iff_eq_none] at hav
    obtain ⟨rm, hrm⟩ := Option.ne_none_iff_exists'.mp hav
    unfold search_row_pred at hpred
    simp only [Bool.and_eq_true] at hpred
    have := hpred.2
    rw [hrm, hmm] at this
    exact absurd this (by simp [mmr_ok])
  · intro e rp
    unfold position_ok
    split
    · simp [truthyStr] at *
    · split
      · simp
      · rfl
  · intro rm pm
    rfl

theorem C10_witness : pW.mmr ≠ none :=
  C10_unset_mmr_excluded.1 dbW 1 none 250 none none none [pW] pW (by decide) (by decide)

theorem positionsLookup_mem (k pos : String) (h : positionsLookup k = some pos) :
    pos = "Carry" ∨ pos = "Mid" ∨ pos = "Offlane" ∨ pos = "Soft Support" ∨
      pos = "Hard Support" := by
  unfold positionsLookup at h
  obtain ⟨e, he, hpos⟩ := Option.map_eq_some'.mp h
  have hmem : e ∈ POSITIONS := List.mem_of_find?_eq_some he
  unfold POSITIONS at hmem
  simp only [List.mem_cons, List.not_mem_nil, or_false] at hmem
  rcases hmem with h1 | h1 | h1 | h1 | h1 <;> subst h1 <;> simp only at hpos <;> tauto

/-- C2: with a (necessarily non-empty) specific position set, the row
predicate is independent of the stored `exclude_position` value and admits
only rows whose position equals the specific one; and the `selectpos_<k>`
button stores the selected label while popping the `exclude_position` key
from the session (and every selectable label is non-empty). -/
theorem C2_specific_position_overrides_exclude :
    (∀ (rid : Nat) (rpos : Option String) (rmmr : Option Int) (sm : Option String)
        (mf : Option Int) (e1 e2 : Option Bool) (sp : String) (ofp : Option Bool)
        (p : Profile), sp ≠ "" →
        search_row_pred rid rpos rmmr sm mf e1 (some sp) ofp p =
          search_row_pred rid rpos rmmr sm mf e2 (some sp) ofp p) ∧
    (∀ (rid : Nat) (rpos : Option String) (rmmr : Option Int) (sm : Option String)
        (mf : Option Int) (e : Option Bool) (sp : String) (ofp : Option Bool)
        (p : Profile), sp ≠ "" →
        search_row_pred rid rpos rmmr sm mf e (some sp) ofp p = true →
        p.position = some sp) ∧
    (∀ (db : List Profile) (uid : Nat) (un : Option String) (data : String) (s : Session)
        (k pos : String),
        callbackOf data = Cb.selectpos k → positionsLookup k = some pos →
        (button_handler db uid un data s).session.specific_position = some pos ∧
        (button_handler db uid un data s).session.exclude_position = none ∧
        pos ≠ "") := by
  refine ⟨?_, ?_, ?_⟩
  · intro rid rpos rmmr sm mf e1 e2 sp ofp p hsp
    have hne : ((sp == "") : Bool) = false := by simpa using hsp
    unfold search_row_pred position_ok
    simp [truthyStr, hne]
  · intro rid rpos rmmr sm mf e sp ofp p hsp hpred
    have hne : ((sp == "") : Bool) = false := by simpa using hsp
    unfold search_row_pred at hpred
    simp only [Bool.and_eq_true] at hpred
    have hpos := hpred.1.1.1.2
    unfold position_ok at hpos
    rw [if_pos (by simp [truthyStr, hne])] at hpos
    simpa using hpos
  · intro db uid un data s k pos hcb hlk
    rw [button_handler, hcb]
    refine ⟨?_, ?_, ?_⟩
    · simp [applyCallback, bh_selectpos, hlk, push_back, store_last_text]
    · simp [applyCallback, bh_selectpos, hlk, push_back, store_last_text]
    · rcases positionsLookup_mem k pos hlk with h | h | h | h | h <;> subst h <;> decide

theorem C2_witness :
    (search_row_pred 1 (some "Mid") (some 3000) none none (some true) (some "Mid") none pW =
      search_row_pred 1 (some "Mid") (some 3000) none none none (some "Mid") none pW) ∧
    ((button_handler [] 1 none "selectpos_2"
        { emptySession with exclude_position := some true }).session.specific_position =
      some "Mid") :=
  ⟨C2_specific_position_overrides_exclude.1 1 (some "Mid") (some 3000) none none
      (some true) none "Mid" none pW (by decide),
   (C2_specific_position_overrides_exclude.2.2 [] 1 none "selectpos_2"
      { emptySession with exclude_position := some true } "2" "Mid"
      (by decide) (by decide)).1⟩

/-- C8: the exclude-own-position toggle is a self-loop: it flips only the
`exclude_position` value, leaves the stack and the other search fields
untouched, re-renders and re-caches the same `SEARCH_POS_OPTION` step
without entering a forward state, and toggling twice restores the original
(default-true) value. -/
theorem C8_toggle_selfloop (db : List Profile) (uid : Nat) (un : Option String)
    (s : Session) :
    (button_handler db uid un "toggle_exclude_position" s).session.back_stack =
      s.back_stack ∧
    (button_handler db uid un "toggle_exclude_position" s).session.exclude_position =
      some (!(s.exclude_position.getD true)) ∧
    (button_handler db uid un "toggle_exclude_position" s).session.search_mode =
      s.search_mode ∧
    (button_handler db uid un "toggle_exclude_position" s).session.specific_position =
      s.specific_position ∧
    (button_handler db uid un "toggle_exclude_position" s).session.only_full_party =
      s.only_full_party ∧
    (button_handler db uid un "toggle_exclude_position" s).session.own_position =
      s.own_position ∧
    (button_handler db uid un "toggle_exclude_position" s).ret = ConvRet.END ∧
    (button_handler db uid un "toggle_exclude_position" s).stored =
      some ("SEARCH_POS_OPTION", "Выберите действие по позиции для поиска:") ∧
    (button_handler db uid un "toggle_exclude_position" s).rendered =
      some ("Выберите действие по позиции для поиска:",
        Keyboard.posOption (!(s.exclude_position.getD true))) ∧
    (button_handler db uid un "toggle_exclude_position"
        (button_handler db uid un "toggle_exclude_position" s).session).session.exclude_position =
      some (s.exclude_position.getD true) := by
  rw [button_handler,
    show callbackOf "toggle_exclude_position" = Cb.toggle_exclude_position from by decide]
  simp [applyCallback, bh_toggle_exclude, store_last_text, button_handler,
    show callbackOf "toggle_exclude_position" = Cb.toggle_exclude_position from by decide]

/-- C4 counterexample: pressing a fixed-delta MMR choice while the
requester's stored MMR is unset leaves the search session fields and the
navigation stack uncleared, contradicting the claim that every path out of
the mmr-option step clears them. -/
theorem C4_counterexample :
    ¬ search_fields_cleared (button_handler dbW4 4 none "delta_100" sW).session ∧
    (button_handler dbW4 4 none "delta_100" sW).session = sW ∧
    (button_handler dbW4 4 none "delta_100" sW).ret = ConvRet.END := by
  refine ⟨?_, by decide, by decide⟩
  intro h
  have := h.1
  revert this
  decide

/-- C4 (amended): "main menu" and the search-executing mmr-option choices
(`mmr_none` always, a fixed delta when the requester's MMR is stored) clear
all five search session fields and the navigation stack and return to Idle;
on the fixed-delta path with the requester's MMR unset the handler returns
to Idle but leaves the session fields and the stack unchanged. -/
theorem C4_amended_clearing :
    (∀ (db : List Profile) (uid : Nat) (un : Option String) (s : Session),
        search_fields_cleared (button_handler db uid un "main_menu" s).session ∧
        (button_handler db uid un "main_menu" s).ret = ConvRet.END) ∧
    (∀ (db : List Profile) (uid : Nat) (un : Option String) (s : Session),
        search_fields_cleared (button_handler db uid un "mmr_none" s).session ∧
        (button_handler db uid un "mmr_none" s).ret = ConvRet.END) ∧
    (∀ (db : List Profile) (uid : Nat) (un : Option String) (s : Session) (data : String),
        data ∈ ["delta_100", "delta_250", "delta_500"] →
        (get_profile db uid).bind Profile.mmr ≠ none →
        search_fields_cleared (button_handler db uid un data s).session ∧
        (button_handler db uid un data s).ret = ConvRet.END) ∧
    (∀ (db : List Profile) (uid : Nat) (un : Option String) (s : Session) (data : String),
        data ∈ ["delta_100", "delta_250", "delta_500"] →
        (get_profile db uid).bind Profile.mmr = none →
        (button_handler db uid un data s).session = s ∧
        (button_handler db uid un data s).ret = ConvRet.END) := by
  refine ⟨?_, ?_, ?_, ?_⟩
  · intro db uid un s
    rw [button_handler, show callbackOf "main_menu" = Cb.main_menu from by decide]
    simp [applyCallback, bh_main_menu, clear_search_session, search_fields_cleared]
  · intro db uid un s
    rw [button_handler, show callbackOf "mmr_none" = Cb.mmr_none from by decide]
    simp [applyCallback, bh_mmr_none, clear_search_session, search_fields_cleared]
  · intro db uid un s data hdata hmmr
    obtain ⟨m, hm⟩ := Option.ne_none_iff_exists'.mp hmmr
    simp only [List.mem_cons, List.not_mem_nil, or_false] at hdata
    rcases hdata with h | h | h
    · subst h
      rw [button_handler, show callbackOf "delta_100" = Cb.delta "100" from by decide]
      simp [applyCallback, bh_delta, show pyInt? "100" = some 100 from by decide, hm,
        clear_search_session, search_fields_cleared]
    · subst h
      rw [button_handler, show callbackOf "delta_250" = Cb.delta "250" from by decide]
      simp [applyCallback, bh_delta, show pyInt? "250" = some 250 from by decide, hm,
        clear_search_session, search_fields_cleared]
    · subst h
      rw [button_handler, show callbackOf "delta_500" = Cb.delta "500" from by decide]
      simp [applyCallback, bh_delta, show pyInt? "500" = some 500 from by decide, hm,
        clear_search_session, search_fields_cleared]
  · intro db uid un s data hdata hmmr
    simp only [List.mem_cons, List.not_mem_nil, or_false] at hdata
    rcases hdata with h | h | h
    · subst h
      rw [button_handler, show callbackOf "delta_100" = Cb.delta "100" from by decide]
      simp [applyCallback, bh_delta, show pyInt? "100" = some 100 from by decide, hmmr]
    · subst h
      rw [button_handler, show callbackOf "delta_250" = Cb.delta "250" from by decide]
      simp [applyCallback, bh_delta, show pyInt? "250" = some 250 from by decide, hmmr]
    · subst h
      rw [button_handler, show callbackOf "delta_500" = Cb.delta "500" from by decide]
      simp [applyCallback, bh_delta, show pyInt? "500" = some 500 from by decide, hmmr]

theorem C4_witness :
    search_fields_cleared (button_handler dbW 1 none "delta_250" sW).session ∧
    (button_handler dbW 1 none "delta_250" sW).ret = ConvRet.END :=
  C4_amended_clearing.2.2.1 dbW 1 none sW "delta_250" (by simp) (by decide)

theorem chunk4000_mem_len (cs : List Char) : ∀ x ∈ chunk4000 cs, x.length ≤ 4000 := by
  induction cs using chunk4000.induct with
  | case1 => simp [chunk4000]
  | case2 c cs ih =>
    intro x hx
    rw [chunk4000] at hx
    rcases List.mem_cons.mp hx with h | h
    · simp [h, List.length_take]
    · exact ih x h

theorem chunk4000_flatten (cs : List Char) : (chunk4000 cs).flatten = cs := by
  induction cs using chunk4000.induct with
  | case1 => simp [chunk4000]
  | case2 c cs ih => rw [chunk4000, List.flatten_cons, ih, List.take_append_drop]

set_option maxRecDepth 100000 in
/-- C5 counterexample: with 501 stored profiles the authorized dump misses
the 501st profile entirely (`SELECT ... LIMIT 500`), refuting "returns
every stored profile". -/
theorem C5_counterexample :
    mkProfile 501 ∈ db501 ∧ dump_line (mkProfile 501) ∉ dump_lines db501 := by
  constructor
  · have h : mkProfile 501 = mkProfile (500 + 1) := rfl
    rw [h]
    exact List.mem_map_of_mem _ (List.mem_range.mpr (by omega))
  · decide

/-- C5 (amended): the export command refuses any caller other than the
configured identity (revealing nothing of the store), and for the
authorized caller it renders each of the first 500 stored profiles as a
human-readable line, delivers the joined text as sequential chunks of at
most 4000 characters, and the concatenated chunks reproduce the whole
report text. -/
theorem C5_amended_dump :
    (∀ (db : List Profile) (caller : Nat), caller ≠ ADMIN_DUMP_USER_ID →
        cmd_dump_profiles db caller = ["У вас нет доступа к этой команде."]) ∧
    (∀ (db : List Profile) (p : Profile), p ∈ db.take 500 →
        dump_line p ∈ dump_lines db) ∧
    (∀ (db : List Profile) (caller : Nat) (m : String),
        m ∈ cmd_dump_profiles db caller → m.length ≤ 4000) ∧
    (∀ db : List Profile, db ≠ [] →
        ((cmd_dump_profiles db ADMIN_DUMP_USER_ID).map String.data).flatten =
          (dump_text db).data) := by
  refine ⟨?_, ?_, ?_, ?_⟩
  · intro db caller hc
    unfold cmd_dump_profiles
    rw [if_pos (by simpa using hc)]
  · intro db p hp
    exact List.mem_map_of_mem dump_line hp
  · intro db caller m hm
    unfold cmd_dump_profiles at hm
    split at hm
    · simp only [List.mem_singleton] at hm
      subst hm; decide
    · split at hm
      · simp only [List.mem_singleton] at hm
        subst hm; decide
      · obtain ⟨l, hl, hml⟩ := List.mem_map.mp hm
        have := chunk4000_mem_len (dump_text db).data l hl
        simpa [← hml, String.length] using this
  · intro db hdb
    unfold cmd_dump_profiles
    rw [if_neg (by simp), if_neg ?hne]
    case hne =>
      simp only [List.isEmpty_iff, List.take_eq_nil_iff]
      push_neg
      exact ⟨by omega, hdb⟩
    rw [List.map_map]
    have : (String.data ∘ String.mk) = id := rfl
    rw [this, List.map_id]
    exact chunk4000_flatten (dump_text db).data

theorem C5_witness :
    cmd_dump_profiles [mkProfile 1] 999 = ["У вас нет доступа к этой команде."] ∧
    dump_line (mkProfile 1) ∈ dump_lines [mkProfile 1] ∧
    (((cmd_dump_profiles [mkProfile 1] ADMIN_DUMP_USER_ID).map String.data).flatten =
      (dump_text [mkProfile 1]).data) :=
  ⟨C5_amended_dump.1 [mkProfile 1] 999 (by decide),
   C5_amended_dump.2.1 [mkProfile 1] (mkProfile 1) (by decide),
   C5_amended_dump.2.2.2 [mkProfile 1] (by decide)⟩

theorem get_position_eq_valid (db : List Profile) (uid : Nat) (un : Option String)
    (txt : String) (s : Session) (pos : String)
    (hcancel : (pyLower (pyStrip txt) == "отмена" || pyLower (pyStrip txt) == "cancel")
      = false)
    (hlk : positionsLookup (pyStrip txt) = some pos) :
    get_position db uid un txt s =
      ⟨upsert_profile db uid (some pos) none none un none none, s, ConvRet.END,
       some ("✅ Позиция сохранена: " ++ pos ++ "\n\nТеперь можешь искать тиммейта!",
         Keyboard.main), none, none⟩ := by
  unfold get_position
  simp only [hcancel, Bool.false_eq_true, if_false, hlk]

theorem get_position_eq_invalid (db : List Profile) (uid : Nat) (un : Option String)
    (txt : String) (s : Session)
    (hcancel : (pyLower (pyStrip txt) == "отмена" || pyLower (pyStrip txt) == "cancel")
      = false)
    (hlk : positionsLookup (pyStrip txt) = none) :
    get_position db uid un txt s =
      ⟨db, s, ConvRet.POSITION, some ("❌ Введи цифру от 1 до 5!", Keyboard.backAndMenu),
       none, none⟩ := by
  unfold get_position
  simp only [hcancel, Bool.false_eq_true, if_false, hlk]

theorem get_position_cancel (db : List Profile) (uid : Nat) (un : Option String)
    (txt : String) (s : Session)
    (hcancel : (pyLower (pyStrip txt) == "отмена" || pyLower (pyStrip txt) == "cancel")
      = true) :
    (get_position db uid un txt s).db = db ∧
    (get_position db uid un txt s).ret ≠ ConvRet.POSITION := by
  constructor
  · simp only [get_position, hcancel, if_true]
  · unfold get_position
    simp only [hcancel, if_true]
    split <;> decide

theorem get_position_digit_case (db : List Profile) (uid : Nat) (un : Option String)
    (s : Session) (k pos : String)
    (hcancel : (pyLower (pyStrip k) == "отмена" || pyLower (pyStrip k) == "cancel")
      = false)
    (hlk : positionsLookup (pyStrip k) = some pos) :
    (get_position db uid un k s).db =
      upsert_profile db uid (some pos) none none un none none ∧
    ((get_profile (get_position db uid un k s).db uid).bind Profile.position) = some pos ∧
    (get_position db uid un k s).ret = ConvRet.END ∧
    (get_position db uid un k s).session = s := by
  rw [get_position_eq_valid db uid un k s pos hcancel hlk]
  exact ⟨rfl, position_after_upsert db uid pos un, rfl, rfl⟩

/-- C7 counterexample: the input "cancel" is not a digit 1–5, yet the flow
does not remain in the `POSITION` state (it pops the stack and ends),
refuting "for every other input text ... the state remains EditPosition"
(the profile is indeed left unchanged). -/
theorem C7_counterexample :
    (get_position [] 1 none "cancel" emptySession).db = [] ∧
    (get_position [] 1 none "cancel" emptySession).ret ≠ ConvRet.POSITION := by
  exact ⟨by decide, by decide⟩

/-- C7 (amended): a digit 1–5 persists the mapped position label and ends
the conversation (back to Idle); any other non-cancel text leaves the store
and session unchanged and stays in `POSITION`; the cancel keywords
("отмена"/"cancel", case-insensitively, after stripping) leave the profile
store unchanged but exit the `POSITION` state via back-navigation. -/
theorem C7_amended_position_input :
    (∀ (db : List Profile) (uid : Nat) (un : Option String) (s : Session) (k : String),
        k ∈ ["1", "2", "3", "4", "5"] →
        ∃ pos, positionsLookup k = some pos ∧
          (get_position db uid un k s).db =
            upsert_profile db uid (some pos) none none un none none ∧
          ((get_profile (get_position db uid un k s).db uid).bind Profile.position) =
            some pos ∧
          (get_position db uid un k s).ret = ConvRet.END ∧
          (get_position db uid un k s).session = s) ∧
    (∀ (db : List Profile) (uid : Nat) (un : Option String) (txt : String) (s : Session),
        (pyLower (pyStrip txt) = "отмена" ∨ pyLower (pyStrip txt) = "cancel") →
        (get_position db uid un txt s).db = db ∧
        (get_position db uid un txt s).ret ≠ ConvRet.POSITION) ∧
    (∀ (db : List Profile) (uid : Nat) (un : Option String) (txt : String) (s : Session),
        pyLower (pyStrip txt) ≠ "отмена" → pyLower (pyStrip txt) ≠ "cancel" →
        positionsLookup (pyStrip txt) = none →
        (get_position db uid un txt s).db = db ∧
        (get_position db uid un txt s).session = s ∧
        (get_position db uid un txt s).ret = ConvRet.POSITION) := by
  refine ⟨?_, ?_, ?_⟩
  · intro db uid un s k hk
    simp only [List.mem_cons, List.not_mem_nil, or_false] at hk
    rcases hk with h | h | h | h | h <;> subst h
    · exact ⟨"Carry", by decide,
        get_position_digit_case db uid un s "1" "Carry" (by decide) (by decide)⟩
    · exact ⟨"Mid", by decide,
        get_position_digit_case db uid un s "2" "Mid" (by decide) (by decide)⟩
    · exact ⟨"Offlane", by decide,
        get_position_digit_case db uid un s "3" "Offlane" (by decide) (by decide)⟩
    · exact ⟨"Soft Support", by decide,
        get_position_digit_case db uid un s "4" "Soft Support" (by decide) (by decide)⟩
    · exact ⟨"Hard Support", by decide,
        get_position_digit_case db uid un s "5" "Hard Support" (by decide) (by decide)⟩
  · intro db uid un txt s hc
    refine get_position_cancel db uid un txt s ?_
    rcases hc with h | h <;> simp [h]
  · intro db uid un txt s h1 h2 hlk
    rw [get_position_eq_invalid db uid un txt s (by simp [h1, h2]) hlk]
    exact ⟨rfl, rfl, rfl⟩

theorem C7_witness :
    (∃ pos, positionsLookup "3" = some pos ∧
      (get_position dbW 1 none "3" emptySession).db =
        upsert_profile dbW 1 (some pos) none none none none none ∧
      ((get_profile (get_position dbW 1 none "3" emptySession).db 1).bind
        Profile.position) = some pos ∧
      (get_position dbW 1 none "3" emptySession).ret = ConvRet.END ∧
      (get_position dbW 1 none "3" emptySession).session = emptySession) ∧
    ((get_position [] 2 none "ОтМена " emptySession).db = [] ∧
      (get_position [] 2 none "ОтМена " emptySession).ret ≠ ConvRet.POSITION) :=
  ⟨C7_amended_position_input.1 dbW 1 none emptySession "3" (by simp),
   C7_amended_position_input.2.1 [] 2 none "ОтМена " emptySession (by left; decide)⟩

theorem bh_delta_stored (db : List Profile) (uid : Nat) (sfx : String) (s : Session) :
    (bh_delta db uid sfx s).stored = none := by
  unfold bh_delta
  split
  · rfl
  · split <;> rfl

/-- C9 counterexample: the full-party "yes" choice renders the confirmation
text but caches only the bare MMR prompt for the `SEARCH_MMR` step, so the
cached text differs from the text actually displayed. -/
theorem C9_counterexample :
    (button_handler [] 1 none "only_full_yes" emptySession).stored =
      some ("SEARCH_MMR", "Теперь выберите опции по MMR:") ∧
    (button_handler [] 1 none "only_full_yes" emptySession).rendered =
      some ("Выбрано: только Full party. Теперь выберите опции по MMR:",
        Keyboard.mmrOption) ∧
    ("Выбрано: только Full party. Теперь выберите опции по MMR:" : String) ≠
      "Теперь выберите опции по MMR:" := by
  exact ⟨by decide, by decide, by decide⟩

/-- C9 (amended): whenever a `button_handler` branch caches a prompt for a
step, the cached text equals the text displayed in that turn — except for
the two full-party choices leading to the mmr-option step, where the
displayed text is the cached bare prompt preceded by the choice
confirmation (so back-navigation shows the bare prompt instead). -/
theorem C9_amended_cache (db : List Profile) (uid : Nat) (un : Option String)
    (data : String) (s : Session) (step t rt : String) (kb : Keyboard)
    (hst : (button_handler db uid un data s).stored = some (step, t))
    (hrd : (button_handler db uid un data s).rendered = some (rt, kb)) :
    rt = t ∨
    (callbackOf data = Cb.only_full_yes ∧
      rt = "Выбрано: только Full party. " ++ t) ∨
    (callbackOf data = Cb.only_full_no ∧
      rt = "Выбрано: не фильтровать по Full party. " ++ t) := by
  rw [button_handler] at hst hrd
  cases hcb : callbackOf data with
  | go_back =>
    rw [hcb] at hst
    simp [applyCallback, bh_go_back] at hst
  | main_menu =>
    rw [hcb] at hst
    simp [applyCallback, bh_main_menu] at hst
  | my_profile =>
    rw [hcb] at hst hrd
    simp only [applyCallback, bh_my_profile, Option.some.injEq, Prod.mk.injEq] at hst hrd
    exact Or.inl (hrd.1.symm.trans hst.2)
  | toggle_online =>
    rw [hcb] at hst hrd
    simp only [applyCallback, bh_toggle_online, Option.some.injEq, Prod.mk.injEq] at hst hrd
    exact Or.inl (hrd.1.symm.trans hst.2)
  | toggle_fullparty =>
    rw [hcb] at hst hrd
    simp only [applyCallback, bh_toggle_fullparty, Option.some.injEq,
      Prod.mk.injEq] at hst hrd
    exact Or.inl (hrd.1.symm.trans hst.2)
  | edit_position =>
    rw [hcb] at hst hrd
    simp only [applyCallback, bh_edit_position, Option.some.injEq, Prod.mk.injEq] at hst hrd
    exact Or.inl (hrd.1.symm.trans hst.2)
  | edit_mode =>
    rw [hcb] at hst hrd
    simp only [applyCallback, bh_edit_mode, Option.some.injEq, Prod.mk.injEq] at hst hrd
    exact Or.inl (hrd.1.symm.trans hst.2)
  | edit_mmr =>
    rw [hcb] at hst hrd
    simp only [applyCallback, bh_edit_mmr, Option.some.injEq, Prod.mk.injEq] at hst hrd
    exact Or.inl (hrd.1.symm.trans hst.2)
  | setmode m =>
    rw [hcb] at hst hrd
    simp only [applyCallback, bh_setmode, Option.some.injEq, Prod.mk.injEq] at hst hrd
    exact Or.inl (hrd.1.symm.trans hst.2)
  | search_party =>
    rw [hcb] at hst hrd
    rcases hgp : get_profile db uid with _ | p
    · simp [applyCallback, bh_search_party, hgp] at hst
    · rcases ht : truthyStr p.position with _ | _
      · simp [applyCallback, bh_search_party, hgp, ht] at hst
      · simp only [applyCallback, bh_search_party, hgp, ht, Bool.not_true,
          Bool.false_eq_true, if_false, Option.some.injEq, Prod.mk.injEq] at hst hrd
        exact Or.inl (hrd.1.symm.trans hst.2)
  | mode m =>
    rw [hcb] at hst hrd
    rcases ht : truthyStr s.own_position with _ | _
    · simp [applyCallback, bh_mode, ht] at hst
    · simp only [applyCallback, bh_mode, ht, Bool.not_true, Bool.false_eq_true,
        if_false, Option.some.injEq, Prod.mk.injEq] at hst hrd
      exact Or.inl (hrd.1.symm.trans hst.2)
  | toggle_exclude_position =>
    rw [hcb] at hst hrd
    simp only [applyCallback, bh_toggle_exclude, Option.some.injEq, Prod.mk.injEq] at hst hrd
    exact Or.inl (hrd.1.symm.trans hst.2)
  | start_search =>
    rw [hcb] at hst hrd
    simp only [applyCallback, bh_start_search, Option.some.injEq, Prod.mk.injEq] at hst hrd
    exact Or.inl (hrd.1.symm.trans hst.2)
  | spec_position =>
    rw [hcb] at hst hrd
    simp only [applyCallback, bh_spec_position, Option.some.injEq, Prod.mk.injEq] at hst hrd
    exact Or.inl (hrd.1.symm.trans hst.2)
  | selectpos k =>
    rw [hcb] at hst hrd
    rcases hlk : positionsLookup k with _ | pos
    · simp [applyCallback, bh_selectpos, hlk] at hst
    · simp only [applyCallback, bh_selectpos, hlk, Option.some.injEq,
        Prod.mk.injEq] at hst hrd
      exact Or.inl (hrd.1.symm.trans hst.2)
  | only_full_yes =>
    rw [hcb] at hst hrd
    simp [applyCallback, bh_only_full] at hst hrd
    right; left
    refine ⟨rfl, ?_⟩
    rw [← hrd.1, ← hst.2]
    decide
  | only_full_no =>
    rw [hcb] at hst hrd
    simp [applyCallback, bh_only_full] at hst hrd
    right; right
    refine ⟨rfl, ?_⟩
    rw [← hrd.1, ← hst.2]
    decide
  | mmr_none =>
    rw [hcb] at hst
    simp [applyCallback, bh_mmr_none] at hst
  | delta sfx =>
    rw [hcb] at hst
    have := bh_delta_stored db uid sfx s
    simp only [applyCallback] at hst
    rw [this] at hst
    exact absurd hst (by simp)
  | other =>
    rw [hcb] at hst
    simp [applyCallback] at hst

theorem C9_witness :
    ("Выбрано: только Full party. Теперь выберите опции по MMR:" =
        "Теперь выберите опции по MMR:") ∨
    (callbackOf "only_full_yes" = Cb.only_full_yes ∧
      "Выбрано: только Full party. Теперь выберите опции по MMR:" =
        "Выбрано: только Full party. " ++ "Теперь выберите опции по MMR:") ∨
    (callbackOf "only_full_yes" = Cb.only_full_no ∧
      "Выбрано: только Full party. Теперь выберите опции по MMR:" =
        "Выбрано: не фильтровать по Full party. " ++ "Теперь выберите опции по MMR:") :=
  C9_amended_cache [] 1 none "only_full_yes" emptySession "SEARCH_MMR"
    "Теперь выберите опции по MMR:"
    "Выбрано: только Full party. Теперь выберите опции по MMR:" Keyboard.mmrOption
    (by decide) (by decide)
